import Mathlib

/-!
Verification of the match-aggregation and prediction pipeline of
`src/bot.py` (repository Aforistic/my-live-bot).

The Python source is shallowly embedded: machine floats are idealised as
exact rationals (`ℚ`), `datetime` instants are integers counting seconds
since the epoch, Python's ambient clock and ambient random generator are
passed in explicitly, and each HTTP interaction is represented by its
observable outcome (status class / timeout / decoded items).  Every
definition mirrors the corresponding lines of `src/bot.py`, which are cited
in the doc comments.
-/

namespace Bot

/-! ## Rounding

Python's built-in `round(x, 1)` rounds to one decimal digit using
round-half-to-even.  `round_half_even` is that tie-breaking rule on exact
rationals; `round1 q` is `round(q, 1)`. -/

/-- Round to the nearest integer, ties to the even neighbour
(the rule used by Python's built-in `round`). -/
def round_half_even (q : ℚ) : ℤ :=
  if q - ⌊q⌋ < 1/2 then ⌊q⌋
  else if 1/2 < q - ⌊q⌋ then ⌊q⌋ + 1
  else if ⌊q⌋ % 2 = 0 then ⌊q⌋ else ⌊q⌋ + 1

/-- Python's `round(q, 1)`: round to one decimal place, ties to even. -/
def round1 (q : ℚ) : ℚ := (round_half_even (q * 10) : ℚ) / 10

theorem round_half_even_nonneg {q : ℚ} (h : 0 ≤ q) : 0 ≤ round_half_even q := by
  have hfl : (0 : ℤ) ≤ ⌊q⌋ := Int.floor_nonneg.2 h
  unfold round_half_even
  split_ifs <;> omega

theorem abs_round_half_even_sub_le (q : ℚ) : |(round_half_even q : ℚ) - q| ≤ 1/2 := by
  have h1 : (⌊q⌋ : ℚ) ≤ q := Int.floor_le q
  have h2 : q < ⌊q⌋ + 1 := Int.lt_floor_add_one q
  unfold round_half_even
  split_ifs <;> rw [abs_le] <;> constructor <;> push_cast <;> linarith

theorem round1_nonneg {q : ℚ} (h : 0 ≤ q) : 0 ≤ round1 q := by
  unfold round1
  have := round_half_even_nonneg (q := q * 10) (by linarith)
  positivity

theorem abs_round1_sub_le (q : ℚ) : |round1 q - q| ≤ 1/20 := by
  have h := abs_round_half_even_sub_le (q * 10)
  rw [abs_le] at h ⊢
  unfold round1
  constructor <;> [linarith [h.1]; linarith [h.2]]

/-- Evaluation helper: if `n ≤ q < n + 1/2` then `round_half_even q = n`. -/
theorem round_half_even_eq_low {q : ℚ} {n : ℤ} (h1 : (n : ℚ) ≤ q)
    (h2 : q < (n : ℚ) + 1/2) : round_half_even q = n := by
  have hfl : ⌊q⌋ = n := Int.floor_eq_iff.2 ⟨h1, by linarith⟩
  unfold round_half_even
  rw [hfl, if_pos (by linarith)]

/-- Evaluation helper: if `n + 1/2 < q < n + 1` then `round_half_even q = n + 1`. -/
theorem round_half_even_eq_high {q : ℚ} {n : ℤ} (h1 : (n : ℚ) + 1/2 < q)
    (h2 : q < (n : ℚ) + 1) : round_half_even q = n + 1 := by
  have hfl : ⌊q⌋ = n := Int.floor_eq_iff.2 ⟨by linarith, by linarith⟩
  unfold round_half_even
  rw [hfl, if_neg (by linarith), if_pos (by linarith)]

/-! ## Prediction engine (`enhanced_prediction`, src/bot.py lines 169-231) -/

/-- Result dictionary of `enhanced_prediction` (src/bot.py lines 216-224):
outcome label, confidence, and the three outcome percentages
(`probs["home"]`, `probs["draw"]`, `probs["away"]`). -/
structure Pred where
  outcome : String
  confidence : ℚ
  home : ℚ
  draw : ℚ
  away : ℚ
deriving DecidableEq, Repr

/-- `league_modifiers.get(league, 1.0)` (src/bot.py lines 177-181). -/
def league_modifier (league : String) : ℚ :=
  if league = "PL" then 11/10
  else if league = "PD" then 1
  else if league = "BL1" then 6/5
  else if league = "SA" then 9/10
  else if league = "FL1" then 1
  else if league = "CL" then 11/10
  else if league = "BRA" then 1
  else 1

theorem league_modifier_pos (league : String) : 0 < league_modifier league := by
  unfold league_modifier
  split_ifs <;> norm_num

/-- `random.uniform(a, b)` applied to a unit draw `u ∈ [0,1]`:
the affine map `a + (b - a) * u`. -/
def uniform (a b u : ℚ) : ℚ := a + (b - a) * u

/-- The confidence / outcome stage of `enhanced_prediction`
(src/bot.py lines 198-214), as a function of the three rounded
percentages.  Returns `(outcome, confidence)`. -/
def confidence_outcome (home_pct draw_pct away_pct : ℚ) : String × ℚ :=
  let confidence := max home_pct (max draw_pct away_pct)
  if 90 ≤ confidence then
    if 90 ≤ home_pct then ("Home Win", min 99 (home_pct * (21/20)))
    else if 90 ≤ away_pct then ("Away Win", min 99 (away_pct * (21/20)))
    else ("Draw", min 95 (draw_pct * (11/10)))
  else
    if home_pct > away_pct ∧ home_pct > draw_pct then ("Home Win", confidence)
    else if away_pct > home_pct ∧ away_pct > draw_pct then ("Away Win", confidence)
    else ("Draw", confidence)

/-- The body of `enhanced_prediction` (src/bot.py lines 169-224).
The four `random.uniform` draws are made explicit: `u0 u1 u2 u3` are the
unit draws the global generator returns for `home_strength`,
`away_strength`, `home_form` and `away_form`, in the order the source
consumes them.  (`away_form` is drawn but never used in the scores.) -/
def enhanced_prediction (league : String) (u0 u1 u2 u3 : ℚ) : Pred :=
  let home_strength := uniform (1/2) 1 u0
  let away_strength := uniform (2/5) (9/10) u1
  let league_mod := league_modifier league
  let home_form := uniform (2/5) (4/5) u2
  let _away_form := uniform (3/10) (7/10) u3
  let home_win := (home_strength * league_mod * home_form) * (4/5)
  let draw := ((home_strength + away_strength) / 2) * (3/10)
  let away_win := (away_strength * (1/home_form)) * (1/2)
  let total := home_win + draw + away_win
  let home_pct := round1 ((home_win/total) * 100)
  let draw_pct := round1 ((draw/total) * 100)
  let away_pct := round1 ((away_win/total) * 100)
  let oc := confidence_outcome home_pct draw_pct away_pct
  ⟨oc.1, oc.2, home_pct, draw_pct, away_pct⟩

/-- The fallback returned by `enhanced_prediction`'s `except` clause
(src/bot.py lines 225-231). -/
def fallback_prediction : Pred := ⟨"Draw", 80, 40, 35, 25⟩

/-- The high-confidence boost rule as the spec states it and as the source
applies it to a home or away winner (src/bot.py lines 202-208):
`p ↦ min(99, p * 1.05)` when `p ≥ 90`, else `p`. -/
def confidence_boost (p : ℚ) : ℚ :=
  if 90 ≤ p then min 99 (p * (21/20)) else p

/-! ## Fetch orchestrator (`fetch_matches`, src/bot.py lines 97-167)

Each API's HTTP interaction is represented by its observable outcome: the
status-code classes the source distinguishes (403, 401, other HTTP error),
a timeout, or a decoded list of items where each item either parsed
(`some raw`) or raised inside the per-item `try` (`none`).  `datetime`
values are seconds since the epoch. -/

/-- One raw match as returned by an adapter's `parser` lambda
(src/bot.py lines 36-42, 52-58, 72-78): the dict with keys
`home`, `away`, `date`, `league`, `match_id`. -/
structure RawParsed where
  home : String
  away : String
  date : String
  league : String
  match_id : String
deriving DecidableEq, Repr

/-- Observable outcome of one `requests.get` call inside `fetch_matches`:
status 403 (line 118), status 401 (line 123), another HTTP / request error
(lines 128, 160-165), an `asyncio.TimeoutError` (line 157), or a decoded
response whose per-item parser results are listed (`none` = the parser
raised and the item is skipped, lines 134-155). -/
inductive FetchOutcome
  | http403
  | http401
  | reqError
  | timeout
  | ok (items : List (Option RawParsed))
deriving DecidableEq, Repr

/-- `True` for the outcomes that take one of the error paths of
`fetch_matches` (and hence record `last_failure`). -/
def FetchOutcome.isError : FetchOutcome → Bool
  | .ok _ => false
  | _ => true

/-- The per-API state `fetch_matches` reads: configured `name` and
`priority`, the mutable `last_failure` timestamp (seconds since epoch,
`none` if the key is absent), and the outcome of the HTTP call the API
would produce if called now. -/
structure ApiState where
  name : String
  priority : Nat
  last_failure : Option Int
  outcome : FetchOutcome
deriving DecidableEq, Repr

/-- One match record appended to `all_matches`
(src/bot.py lines 144-151). -/
structure MatchRec where
  home : String
  away : String
  date : String
  league : String
  source : String
  match_id : String
deriving DecidableEq, Repr

/-- `TOP_LEAGUES` (src/bot.py lines 86-95). -/
def TOP_LEAGUES : List (String × String) :=
  [("PL", "Premier League"), ("PD", "La Liga"), ("BL1", "Bundesliga"),
   ("SA", "Serie A"), ("FL1", "Ligue 1"), ("CL", "Champions League"),
   ("EL", "Europa League"), ("BRA", "Brasileir√£o")]

/-- `match["league"] in TOP_LEAGUES` (src/bot.py line 143): key membership
in the `TOP_LEAGUES` dict. -/
def top_league (league : String) : Bool :=
  TOP_LEAGUES.any (fun p => p.1 == league)

/-- The dedup key `f"{match['home']}-{match['away']}-{match['date'][:10]}"`
(src/bot.py line 136). -/
def match_key (m : RawParsed) : String :=
  m.home ++ "-" ++ m.away ++ "-" ++ m.date.take 10

/-- The dict appended to `all_matches` for a surviving match
(src/bot.py lines 144-151): the parsed fields plus the single reporting
`source` name. -/
def mk_match (src : String) (m : RawParsed) : MatchRec :=
  ⟨m.home, m.away, m.date, m.league, src, m.match_id⟩

/-- The dedup key of an output record (same formula as `match_key`,
read off the record's own fields). -/
def rec_key (r : MatchRec) : String :=
  r.home ++ "-" ++ r.away ++ "-" ++ r.date.take 10

/-- The cool-down test `(datetime.now() - api["last_failure"]).seconds < 3600`
guarded by `api.get("last_failure")` (src/bot.py line 105).
Python's `timedelta.seconds` is the seconds *component* of the normalized
delta, i.e. `total_seconds mod 86400` with floor semantics — not the total. -/
def cooldown_active (now : Int) (lf : Option Int) : Bool :=
  match lf with
  | none => false
  | some t => (now - t) % 86400 < 3600

/-- The body of the per-item loop (src/bot.py lines 133-155) acting on the
state `(all_matches, seen_matches)`.  A `none` item corresponds to the
parser raising (skipped by the inner `except`).  Note the source adds the
key to `seen_matches` *before* the `TOP_LEAGUES` filter. -/
def process_item (src : String) (st : List MatchRec × List String)
    (it : Option RawParsed) : List MatchRec × List String :=
  match it with
  | none => st
  | some m =>
    let key := match_key m
    if key ∈ st.2 then st
    else
      let seen := key :: st.2
      if top_league m.league then (st.1 ++ [mk_match src m], seen)
      else (st.1, seen)

/-- One iteration of the per-API loop (src/bot.py lines 102-165): skip when
cooling down, skip (after recording the failure) on any error outcome,
otherwise run the item loop over the first 15 items. -/
def process_api (now : Int) (st : List MatchRec × List String)
    (api : ApiState) : List MatchRec × List String :=
  if cooldown_active now api.last_failure then st
  else
    match api.outcome with
    | .ok items => (items.take 15).foldl (process_item api.name) st
    | _ => st

/-- Stable insertion used by `sortByPriority`. -/
def insertPriority (a : ApiState) : List ApiState → List ApiState
  | [] => [a]
  | b :: t => if a.priority ≤ b.priority then a :: b :: t
              else b :: insertPriority a t

/-- `sorted(ACTIVE_APIS, key=lambda x: x.get("priority", 10))`
(src/bot.py line 102): a stable sort by ascending priority (every
configured API carries a `priority` key, lines 44, 60, 80). -/
def sortByPriority : List ApiState → List ApiState
  | [] => []
  | a :: t => insertPriority a (sortByPriority t)

/-- `fetch_matches` (src/bot.py lines 97-167): iterate the APIs in
ascending priority order, fold the per-API step over the
`(all_matches, seen_matches)` state, and return `all_matches[:20]`. -/
def fetch_matches (now : Int) (apis : List ApiState) : List MatchRec :=
  (((sortByPriority apis).foldl (process_api now) ([], [])).1).take 20

/-! ## Time parsing (`parse_match_time`, src/bot.py lines 233-247)

`datetime.strptime` is embedded for exactly the three format strings the
source tries, at second granularity.  A parsed `datetime` is represented
by the epoch value of its civil fields (`naive`) plus its UTC offset in
seconds (`tz`, `none` for a naive datetime). -/

/-- Civil date-time fields as produced by `strptime`. -/
structure Civil where
  year : Nat
  month : Nat
  day : Nat
  hour : Nat
  minute : Nat
  second : Nat
deriving DecidableEq, Repr

/-- A Python `datetime`: epoch seconds of its civil fields plus an optional
UTC offset in seconds (`none` = naive). -/
structure PyDateTime where
  naive : Int
  tz : Option Int
deriving DecidableEq, Repr

/-- Gregorian leap-year test (as used by `datetime`). -/
def is_leap (y : Nat) : Bool := (y % 4 == 0 && y % 100 != 0) || y % 400 == 0

/-- Length of a month, used by the `datetime` constructor's day check. -/
def days_in_month (y m : Nat) : Nat :=
  if m = 2 then (if is_leap y then 29 else 28)
  else if m = 4 ∨ m = 6 ∨ m = 9 ∨ m = 11 then 30
  else 31

/-- Days from 1970-01-01 to the given proleptic-Gregorian civil date. -/
def days_from_civil (y m d : Nat) : Int :=
  let yi : Int := if m ≤ 2 then (y : Int) - 1 else (y : Int)
  let era : Int := Int.fdiv yi 400
  let yoe : Int := yi - era * 400
  let mp : Int := ((m : Int) + 9) % 12
  let doy : Int := (153 * mp + 2) / 5 + (d : Int) - 1
  let doe : Int := yoe * 365 + yoe / 4 - yoe / 100 + doy
  era * 146097 + doe - 719468

/-- Epoch seconds of a civil date-time (fields read as UTC). -/
def civil_epoch (c : Civil) : Int :=
  days_from_civil c.year c.month c.day * 86400
    + c.hour * 3600 + c.minute * 60 + c.second

/-- Numeric value of a digit character. -/
def digit_val (c : Char) : Nat := c.toNat - 48

/-- Parse exactly `n` digits (strptime's `%Y` field is four digits). -/
def parseNDigits : Nat → Nat → List Char → Option (Nat × List Char)
  | 0, acc, cs => some (acc, cs)
  | n+1, acc, c :: cs =>
    if c.isDigit then parseNDigits n (acc * 10 + digit_val c) cs else none
  | _+1, _, [] => none

/-- Parse one or two digits, preferring two (strptime's `%m %d %H %M %S`). -/
def parse1or2 : List Char → Option (Nat × List Char)
  | c1 :: c2 :: cs =>
    if c1.isDigit then
      (if c2.isDigit then some (digit_val c1 * 10 + digit_val c2, cs)
       else some (digit_val c1, c2 :: cs))
    else none
  | [c1] => if c1.isDigit then some (digit_val c1, []) else none
  | [] => none

/-- Consume one expected literal character. -/
def expectChar (c : Char) : List Char → Option (List Char)
  | c2 :: cs => if c2 = c then some cs else none
  | [] => none

/-- Parse `%Y-%m-%d<sep>%H:%M:%S` and apply the range checks `strptime`
and the `datetime` constructor perform. -/
def parse_civil (sep : Char) (cs : List Char) : Option (Civil × List Char) := do
  let (y, cs) ← parseNDigits 4 0 cs
  let cs ← expectChar '-' cs
  let (mo, cs) ← parse1or2 cs
  let cs ← expectChar '-' cs
  let (d, cs) ← parse1or2 cs
  let cs ← expectChar sep cs
  let (h, cs) ← parse1or2 cs
  let cs ← expectChar ':' cs
  let (mi, cs) ← parse1or2 cs
  let cs ← expectChar ':' cs
  let (s, cs) ← parse1or2 cs
  if 1 ≤ mo ∧ mo ≤ 12 ∧ 1 ≤ d ∧ d ≤ days_in_month y mo
      ∧ h ≤ 23 ∧ mi ≤ 59 ∧ s ≤ 59 then
    some (⟨y, mo, d, h, mi, s⟩, cs)
  else none

/-- Sign character of a `%z` offset. -/
def tz_sign (c : Char) : Option Int :=
  if c = '+' then some 1 else if c = '-' then some (-1) else none

/-- Parse strptime's `%z`: `Z`, `±HH:MM` or `±HHMM`; result is the UTC
offset in seconds. -/
def parse_tz (cs : List Char) : Option (Int × List Char) :=
  match cs with
  | [] => none
  | c :: rest =>
    if c = 'Z' then some (0, rest)
    else
      match tz_sign c with
      | none => none
      | some sg =>
        match parseNDigits 2 0 rest with
        | none => none
        | some (hh, rest1) =>
          let rest2 := match rest1 with
            | ':' :: r => r
            | r => r
          match parseNDigits 2 0 rest2 with
          | none => none
          | some (mm, rest3) =>
            some (sg * ((hh : Int) * 3600 + (mm : Int) * 60), rest3)

/-- `datetime.strptime(s, "%Y-%m-%dT%H:%M:%S%z")` (first format tried,
src/bot.py line 236).  The result is offset-aware. -/
def strptime_offset (s : String) : Option PyDateTime :=
  match parse_civil 'T' s.toList with
  | none => none
  | some (c, rest) =>
    match parse_tz rest with
    | some (off, []) => some ⟨civil_epoch c, some off⟩
    | _ => none

/-- `datetime.strptime(s, "%Y-%m-%dT%H:%M:%SZ")` (second format,
src/bot.py line 236): literal `Z`, result naive. -/
def strptime_zulu (s : String) : Option PyDateTime :=
  match parse_civil 'T' s.toList with
  | some (c, ['Z']) => some ⟨civil_epoch c, none⟩
  | _ => none

/-- `datetime.strptime(s, "%Y-%m-%d %H:%M:%S")` (third format,
src/bot.py line 236): naive result. -/
def strptime_space (s : String) : Option PyDateTime :=
  match parse_civil ' ' s.toList with
  | some (c, []) => some ⟨civil_epoch c, none⟩
  | _ => none

/-- The post-parse fix-up `if 'Z' in date_str and not
date_str.endswith('+00:00'): dt = dt.replace(tzinfo=pytz.UTC)`
(src/bot.py lines 239-240).  `'Z' in date_str` is membership of the
character, `endswith` a suffix test; both are expressed on the string's
character list. -/
def apply_z_fix (date_str : String) (dt : PyDateTime) : PyDateTime :=
  if date_str.toList.contains 'Z'
      && !("+00:00".toList.isSuffixOf date_str.toList) then
    { dt with tz := some 0 }
  else dt

/-- `parse_match_time` (src/bot.py lines 233-247): try the three formats in
order; the first success is returned (after the `Z` fix-up).  When *no*
format parses — or anything else raises — the function returns
`datetime.now(pytz.utc) + timedelta(hours=2)`, i.e. a substituted kickoff
two hours from now.  `now_utc` is the ambient clock value
`datetime.now(pytz.utc)` in epoch seconds. -/
def parse_match_time (now_utc : Int) (date_str : String) : PyDateTime :=
  match strptime_offset date_str with
  | some dt => apply_z_fix date_str dt
  | none =>
    match strptime_zulu date_str with
    | some dt => apply_z_fix date_str dt
    | none =>
      match strptime_space date_str with
      | some dt => apply_z_fix date_str dt
      | none => ⟨now_utc + 7200, some 0⟩

/-! ## Countdown and lifecycle phase (`precise_countdown`,
src/bot.py lines 249-271)

`now` (the ambient `datetime.now(pytz.utc)` taken at line 251) is an
explicit argument, in epoch seconds; it is offset-aware.  `match_time` is
the `PyDateTime` produced by `parse_match_time` — it may be offset-naive,
since the accepted layout `%Y-%m-%d %H:%M:%S` yields a naive result and
the `Z` fix-up never fires on it.  Python raises
`TypeError: can't compare offset-naive and offset-aware datetimes` at the
very first comparison `match_time > now` (line 252) in that case; the
embedding returns `none` for it.  Two aware datetimes compare by UTC
instant (`naive - offset`); `countdown_instants` is the branch arithmetic
of the function on those instants, its string literals copied
byte-for-byte from the source file. -/

/-- The branch arithmetic of `precise_countdown` (src/bot.py
lines 251-271) on UTC instants, i.e. the behaviour once `match_time` is
offset-aware with instant `match_time` (epoch seconds). -/
def countdown_instants (match_time now : Int) : String :=
  if now < match_time then
    let total_seconds := (match_time - now).toNat
    if 86400 < total_seconds then
      let days := total_seconds / 86400
      let hours := (total_seconds % 86400) / 3600
      s!"‚è≥ {days}d {hours}h until kickoff"
    else if 3600 < total_seconds then
      let hours := total_seconds / 3600
      let minutes := (total_seconds % 3600) / 60
      s!"‚è≥ {hours}h {minutes}m until kickoff"
    else if 60 < total_seconds then
      let minutes := total_seconds / 60
      let seconds := total_seconds % 60
      s!"‚è≥ {minutes}m {seconds}s until kickoff"
    else s!"‚è≥ {total_seconds}s until kickoff!"
  else if now - match_time < 7200 then "üî• LIVE NOW!"
  else "‚úÖ Match Ended"

/-- `precise_countdown` (src/bot.py lines 249-271) on the parsed
`datetime` it actually receives.  If `match_time` is offset-naive the
comparison `match_time > now` against the aware `now` raises `TypeError`
(modelled as `none`); otherwise the aware `match_time` compares by its
UTC instant `naive - offset` and the branch arithmetic runs. -/
def precise_countdown (match_time : PyDateTime) (now : Int) : Option String :=
  match match_time.tz with
  | none => none
  | some off => some (countdown_instants (match_time.naive - off) now)

/-- The three lifecycle phases of a match. -/
inductive Phase
  | Upcoming
  | Live
  | Ended
deriving DecidableEq, Repr

/-- The phase classification realised by `countdown_instants`'s branch
structure (src/bot.py lines 252 and 271): upcoming when `match_time > now`,
live while `now - match_time < 2` hours, ended beyond. -/
def phase_instants (match_time now : Int) : Phase :=
  if now < match_time then .Upcoming
  else if now - match_time < 7200 then .Live
  else .Ended

/-- The phase of a parsed `datetime`: classifies the branch
`precise_countdown` takes, with `none` for the `TypeError` it raises on
an offset-naive `match_time` (src/bot.py line 252). -/
def phase (match_time : PyDateTime) (now : Int) : Option Phase :=
  match match_time.tz with
  | none => none
  | some off => some (phase_instants (match_time.naive - off) now)

/-! ## The ambient random generator

`enhanced_prediction` calls the process-global `random.uniform` four times
(src/bot.py lines 173, 174, 184, 185).  The global generator is modelled
by the stream of unit draws it will emit and the position of the next
unconsumed draw. -/

/-- The global generator's future output: the stream of unit draws in
`[0,1)`. -/
def Entropy : Type := Nat → ℚ

/-- One call of `enhanced_prediction` against the global generator at
stream position `pos`: consumes the next four unit draws (in the order the
source draws them) and advances the position. -/
def enhanced_prediction_r (league : String) (e : Entropy) (pos : Nat) :
    Pred × Nat :=
  (enhanced_prediction league (e pos) (e (pos+1)) (e (pos+2)) (e (pos+3)),
   pos + 4)

/-- Predicting a list of candidates in order (as the loop in
`send_predictions`, src/bot.py lines 323-325, does), threading the global
generator's position through the calls. -/
def predictions_run (leagues : List String) (e : Entropy) (pos : Nat) :
    List Pred × Nat :=
  leagues.foldl
    (fun st lg =>
      (st.1 ++ [(enhanced_prediction_r lg e st.2).1],
       (enhanced_prediction_r lg e st.2).2))
    ([], pos)

/-! ## Named components of `enhanced_prediction`

The local variables `home_win`, `draw`, `away_win`, `total` of
src/bot.py lines 188-193, lifted to top-level definitions (each equal by
`rfl` to the corresponding `let` inside `enhanced_prediction`). -/

/-- `home_win = (home_strength * league_mod * home_form) * 0.8`
(src/bot.py line 188). -/
def home_win_score (league : String) (u0 u2 : ℚ) : ℚ :=
  uniform (1/2) 1 u0 * league_modifier league * uniform (2/5) (4/5) u2 * (4/5)

/-- `draw = ((home_strength + away_strength) / 2) * 0.3`
(src/bot.py line 189). -/
def draw_score (u0 u1 : ℚ) : ℚ :=
  (uniform (1/2) 1 u0 + uniform (2/5) (9/10) u1) / 2 * (3/10)

/-- `away_win = (away_strength * (1/home_form)) * 0.5`
(src/bot.py line 190). -/
def away_win_score (u1 u2 : ℚ) : ℚ :=
  uniform (2/5) (9/10) u1 * (1 / uniform (2/5) (4/5) u2) * (1/2)

/-- `total = home_win + draw + away_win` (src/bot.py line 193). -/
def total_score (league : String) (u0 u1 u2 : ℚ) : ℚ :=
  home_win_score league u0 u2 + draw_score u0 u1 + away_win_score u1 u2

theorem enhanced_prediction_home (league : String) (u0 u1 u2 u3 : ℚ) :
    (enhanced_prediction league u0 u1 u2 u3).home
      = round1 (home_win_score league u0 u2 / total_score league u0 u1 u2 * 100) := rfl

theorem enhanced_prediction_draw (league : String) (u0 u1 u2 u3 : ℚ) :
    (enhanced_prediction league u0 u1 u2 u3).draw
      = round1 (draw_score u0 u1 / total_score league u0 u1 u2 * 100) := rfl

theorem enhanced_prediction_away (league : String) (u0 u1 u2 u3 : ℚ) :
    (enhanced_prediction league u0 u1 u2 u3).away
      = round1 (away_win_score u1 u2 / total_score league u0 u1 u2 * 100) := rfl

theorem enhanced_prediction_confidence (league : String) (u0 u1 u2 u3 : ℚ) :
    (enhanced_prediction league u0 u1 u2 u3).confidence
      = (confidence_outcome (enhanced_prediction league u0 u1 u2 u3).home
          (enhanced_prediction league u0 u1 u2 u3).draw
          (enhanced_prediction league u0 u1 u2 u3).away).2 := rfl

/-! ## The flattened fetch sequence

`fetch_matches` consults the successfully parsed items grouped per API; to
reason about deduplication it is convenient to flatten them — in exactly
the order the nested loops visit them — into one list of
`(source name, raw match)` pairs and to characterise the fold over that
list by a direct recursion. -/

/-- The per-pair step: one successfully parsed item from a named source
(the body of src/bot.py lines 136-151). -/
def process_entry (st : List MatchRec × List String)
    (p : String × RawParsed) : List MatchRec × List String :=
  process_item p.1 st (some p.2)

/-- The `(source, raw match)` pairs one API contributes, in loop order:
nothing while cooling down or on an error outcome, otherwise the parsed
items among the first 15. -/
def api_items (now : Int) (api : ApiState) : List (String × RawParsed) :=
  if cooldown_active now api.last_failure then []
  else
    match api.outcome with
    | .ok items => ((items.take 15).filterMap id).map (fun m => (api.name, m))
    | _ => []

/-- All `(source, raw match)` pairs of one fetch run, in the order the
nested loops of `fetch_matches` visit them (APIs in ascending priority). -/
def fetch_stream (now : Int) (apis : List ApiState) :
    List (String × RawParsed) :=
  (sortByPriority apis).flatMap (api_items now)

/-- Direct recursion computing the `all_matches` output of the dedup fold
over a pair sequence, given the keys already seen. -/
def dedup_run (seen : List String) :
    List (String × RawParsed) → List MatchRec
  | [] => []
  | (s, m) :: t =>
    if match_key m ∈ seen then dedup_run seen t
    else if top_league m.league then
      mk_match s m :: dedup_run (match_key m :: seen) t
    else dedup_run (match_key m :: seen) t

/-- Direct recursion computing the `seen_matches` state of the dedup fold
over a pair sequence. -/
def collect_seen (seen : List String) :
    List (String × RawParsed) → List String
  | [] => seen
  | (_, m) :: t =>
    if match_key m ∈ seen then collect_seen seen t
    else collect_seen (match_key m :: seen) t

theorem rec_key_mk_match (s : String) (m : RawParsed) :
    rec_key (mk_match s m) = match_key m := rfl

/-- The item loop of one API is the pair fold over that API's parsed
items. -/
theorem process_item_foldl (name : String) (items : List (Option RawParsed))
    (st : List MatchRec × List String) :
    items.foldl (process_item name) st
      = ((items.filterMap id).map (fun m => (name, m))).foldl process_entry st := by
  induction items generalizing st with
  | nil => rfl
  | cons hd tl ih =>
    cases hd with
    | none => simpa [process_item] using ih st
    | some m => simpa [process_entry] using ih (process_item name st (some m))

/-- One API step of the fold equals the pair fold over its contributed
items. -/
theorem process_api_eq_foldl (now : Int) (api : ApiState)
    (st : List MatchRec × List String) :
    process_api now st api = (api_items now api).foldl process_entry st := by
  unfold process_api api_items
  split_ifs with hcd
  · rfl
  · cases api.outcome with
    | ok items => exact process_item_foldl api.name (items.take 15) st
    | http403 => rfl
    | http401 => rfl
    | reqError => rfl
    | timeout => rfl

/-- The whole fetch fold equals the pair fold over the flattened fetch
sequence. -/
theorem fetch_fold_eq (now : Int) (apis : List ApiState)
    (st : List MatchRec × List String) :
    (sortByPriority apis).foldl (process_api now) st
      = (fetch_stream now apis).foldl process_entry st := by
  unfold fetch_stream
  generalize sortByPriority apis = l
  induction l generalizing st with
  | nil => rfl
  | cons hd tl ih =>
    rw [List.foldl_cons, List.flatMap_cons, List.foldl_append,
      process_api_eq_foldl, ih]

/-- The pair fold is `dedup_run` / `collect_seen`. -/
theorem foldl_process_entry (ps : List (String × RawParsed))
    (acc : List MatchRec) (seen : List String) :
    ps.foldl process_entry (acc, seen)
      = (acc ++ dedup_run seen ps, collect_seen seen ps) := by
  induction ps generalizing acc seen with
  | nil => simp [dedup_run, collect_seen]
  | cons hd tl ih =>
    obtain ⟨s, m⟩ := hd
    rw [List.foldl_cons]
    by_cases hseen : match_key m ∈ seen
    · rw [show process_entry (acc, seen) (s, m) = (acc, seen) by
        simp [process_entry, process_item, hseen]]
      rw [ih, dedup_run, collect_seen, if_pos hseen, if_pos hseen]
    · by_cases htop : top_league m.league
      · rw [show process_entry (acc, seen) (s, m)
            = (acc ++ [mk_match s m], match_key m :: seen) by
          simp [process_entry, process_item, hseen, htop]]
        rw [ih, dedup_run, collect_seen, if_neg hseen, if_neg hseen,
          if_pos htop]
        simp
      · rw [show process_entry (acc, seen) (s, m)
            = (acc, match_key m :: seen) by
          simp [process_entry, process_item, hseen, htop]]
        rw [ih, dedup_run, collect_seen, if_neg hseen, if_neg hseen,
          if_neg htop]

/-- `fetch_matches` is the first 20 records of the deduplicated flattened
fetch sequence. -/
theorem fetch_matches_eq_dedup (now : Int) (apis : List ApiState) :
    fetch_matches now apis = (dedup_run [] (fetch_stream now apis)).take 20 := by
  unfold fetch_matches
  rw [fetch_fold_eq, foldl_process_entry]
  simp

/-- Keys produced by `dedup_run` avoid `seen` and are mutually distinct. -/
theorem dedup_run_keys (seen : List String) (ps : List (String × RawParsed)) :
    (∀ r ∈ dedup_run seen ps, rec_key r ∉ seen)
    ∧ ((dedup_run seen ps).map rec_key).Nodup := by
  induction ps generalizing seen with
  | nil => simp [dedup_run]
  | cons hd tl ih =>
    obtain ⟨s, m⟩ := hd
    rw [dedup_run]
    split_ifs with hseen htop
    · exact ih seen
    · obtain ⟨ihf, ihn⟩ := ih (match_key m :: seen)
      refine ⟨?_, ?_⟩
      · intro r hr
        rcases List.mem_cons.1 hr with h | h
        · subst h; rw [rec_key_mk_match]; exact hseen
        · exact fun hc => ihf r h (List.mem_cons_of_mem _ hc)
      · rw [List.map_cons, List.nodup_cons]
        refine ⟨?_, ihn⟩
        intro hc
        obtain ⟨r, hr, hk⟩ := List.mem_map.1 hc
        exact ihf r hr (by rw [hk, rec_key_mk_match]; exact List.mem_cons_self _ _)
    · obtain ⟨ihf, ihn⟩ := ih (match_key m :: seen)
      exact ⟨fun r hr hc => ihf r hr (List.mem_cons_of_mem _ hc), ihn⟩

/-- Every record `dedup_run` emits is built from the *first* pair in the
sequence that carries its key. -/
theorem dedup_run_first_wins (seen : List String)
    (ps : List (String × RawParsed)) :
    ∀ r ∈ dedup_run seen ps,
      ∃ p, ps.find? (fun q => match_key q.2 == rec_key r) = some p
        ∧ r = mk_match p.1 p.2 := by
  induction ps generalizing seen with
  | nil => simp [dedup_run]
  | cons hd tl ih =>
    obtain ⟨s, m⟩ := hd
    intro r hr
    rw [dedup_run] at hr
    split_ifs at hr with hseen htop
    · -- key of the head already seen: r's key differs from it
      have hfresh := (dedup_run_keys seen tl).1 r hr
      have hne : match_key m ≠ rec_key r := fun hc => hfresh (hc ▸ hseen)
      obtain ⟨p, hp, he⟩ := ih seen r hr
      exact ⟨p, by rw [List.find?_cons_of_neg _ (by simpa using hne)]; exact hp, he⟩
    · rcases List.mem_cons.1 hr with h | h
      · subst h
        refine ⟨(s, m), ?_, rfl⟩
        rw [List.find?_cons_of_pos _ (by simp [rec_key_mk_match])]
      · have hfresh := (dedup_run_keys (match_key m :: seen) tl).1 r h
        have hne : match_key m ≠ rec_key r :=
          fun hc => hfresh (hc ▸ List.mem_cons_self _ _)
        obtain ⟨p, hp, he⟩ := ih (match_key m :: seen) r h
        exact ⟨p, by rw [List.find?_cons_of_neg _ (by simpa using hne)]; exact hp, he⟩
    · have hfresh := (dedup_run_keys (match_key m :: seen) tl).1 r hr
      have hne : match_key m ≠ rec_key r :=
        fun hc => hfresh (hc ▸ List.mem_cons_self _ _)
      obtain ⟨p, hp, he⟩ := ih (match_key m :: seen) r hr
      exact ⟨p, by rw [List.find?_cons_of_neg _ (by simpa using hne)]; exact hp, he⟩

/-! ## Claim C1 — deduplication -/

/-- C1 counterexample: two raw matches with the same dedupe key reported
by two sources (`football-data`, priority 1, and `api-football`,
priority 2).  The normalized output keeps exactly one record, taken from
the priority-1 adapter, but its `source` field records only that single
adapter: no record carries `api-football`, so the surviving record's
sources are *not* the union of the sources that reported the key. -/
theorem c1_counterexample :
    match_key ⟨"Arsenal", "Chelsea", "2025-05-01T18:00:00Z", "PL", "11"⟩
      = match_key ⟨"Arsenal", "Chelsea", "2025-05-01T20:00:00+02:00", "PL", "22"⟩
    ∧ fetch_matches 0
        [⟨"football-data", 1, none,
          .ok [some ⟨"Arsenal", "Chelsea", "2025-05-01T18:00:00Z", "PL", "11"⟩]⟩,
         ⟨"api-football", 2, none,
          .ok [some ⟨"Arsenal", "Chelsea", "2025-05-01T20:00:00+02:00", "PL", "22"⟩]⟩]
      = [⟨"Arsenal", "Chelsea", "2025-05-01T18:00:00Z", "PL", "football-data", "11"⟩]
    ∧ ¬ (∃ r ∈ fetch_matches 0
        [⟨"football-data", 1, none,
          .ok [some ⟨"Arsenal", "Chelsea", "2025-05-01T18:00:00Z", "PL", "11"⟩]⟩,
         ⟨"api-football", 2, none,
          .ok [some ⟨"Arsenal", "Chelsea", "2025-05-01T20:00:00+02:00", "PL", "22"⟩]⟩],
        r.source = "api-football") := by
  refine ⟨rfl, by decide, by decide⟩

/-- C1 (amended): after the dedup stage the output contains *at most* one
record per dedupe key, and every surviving record takes all its field
values — including its single `source` field — from the first raw match
carrying that key in the priority-ordered fetch sequence (i.e. from the
reporting adapter with the lowest priority value).  The sources of later
duplicates are discarded: no union of sources is kept. -/
theorem c1_dedup_amended (now : Int) (apis : List ApiState) :
    ((fetch_matches now apis).map rec_key).Nodup
    ∧ ∀ r ∈ fetch_matches now apis,
        ∃ p, (fetch_stream now apis).find?
              (fun q => match_key q.2 == rec_key r) = some p
          ∧ r = mk_match p.1 p.2 ∧ r.source = p.1 := by
  rw [fetch_matches_eq_dedup]
  constructor
  · exact (dedup_run_keys [] (fetch_stream now apis)).2.sublist
      ((List.take_sublist 20 _).map rec_key)
  · intro r hr
    have hr' : r ∈ dedup_run [] (fetch_stream now apis) :=
      (List.take_sublist _ _).mem hr
    obtain ⟨p, hp, he⟩ := dedup_run_first_wins [] (fetch_stream now apis) r hr'
    exact ⟨p, hp, he, by rw [he]; rfl⟩

/-- C1 witness: the amended dedup theorem applied to the concrete
two-source run; the surviving record is traced back to the first pair of
the flattened fetch sequence. -/
theorem c1_dedup_amended_witness :
    ∃ p, (fetch_stream 0
        [⟨"football-data", 1, none,
          .ok [some ⟨"Arsenal", "Chelsea", "2025-05-01T18:00:00Z", "PL", "11"⟩]⟩,
         ⟨"api-football", 2, none,
          .ok [some ⟨"Arsenal", "Chelsea", "2025-05-01T20:00:00+02:00", "PL", "22"⟩]⟩]).find?
        (fun q => match_key q.2 == rec_key
          ⟨"Arsenal", "Chelsea", "2025-05-01T18:00:00Z", "PL", "football-data", "11"⟩)
        = some p
      ∧ (⟨"Arsenal", "Chelsea", "2025-05-01T18:00:00Z", "PL", "football-data", "11"⟩ : MatchRec)
          = mk_match p.1 p.2
      ∧ (⟨"Arsenal", "Chelsea", "2025-05-01T18:00:00Z", "PL", "football-data", "11"⟩ : MatchRec).source
          = p.1 :=
  (c1_dedup_amended 0
    [⟨"football-data", 1, none,
      .ok [some ⟨"Arsenal", "Chelsea", "2025-05-01T18:00:00Z", "PL", "11"⟩]⟩,
     ⟨"api-football", 2, none,
      .ok [some ⟨"Arsenal", "Chelsea", "2025-05-01T20:00:00+02:00", "PL", "22"⟩]⟩]).2
    ⟨"Arsenal", "Chelsea", "2025-05-01T18:00:00Z", "PL", "football-data", "11"⟩
    (by decide)

/-! ## Claim C4 — cool-down window -/

/-- C4: the cool-down check (src/bot.py line 105) uses
`timedelta.seconds` — the seconds *component* of the delta, i.e.
`(now - last_failure) mod 86400` — instead of the total.  At a failure
recorded 24 h 30 m (88200 s) before `now` the component is 1800 < 3600,
so the adapter is still skipped (the fetch returns nothing even though
the API would answer), although the failure is far older than one hour. -/
theorem c4_cooldown_bug :
    cooldown_active 88200 (some 0) = true
    ∧ ((88200 : Int) - 0) % 86400 = 1800
    ∧ (3600 : Int) ≤ 88200 - 0
    ∧ fetch_matches 88200
        [⟨"football-data", 1, some 0,
          .ok [some ⟨"Arsenal", "Chelsea", "2025-05-01T18:00:00Z", "PL", "11"⟩]⟩]
      = [] := by
  refine ⟨by decide, by decide, by decide, by decide⟩

/-! ## Claim C6 — error reporting -/

/-- C6 counterexample: a run whose only source fails with HTTP 401 and a
run whose only source succeeds with zero matches return *identical*
values — `fetch_matches` returns only the match list (src/bot.py
line 167), so an empty result with an error is indistinguishable from an
empty result without one. -/
theorem c6_counterexample :
    fetch_matches 0 [⟨"football-data", 1, none, .http401⟩]
      = fetch_matches 0 [⟨"football-data", 1, none, .ok []⟩]
    ∧ FetchOutcome.isError .http401 = true
    ∧ FetchOutcome.isError (.ok []) = false := by
  refine ⟨by decide, rfl, rfl⟩

/-- C6 (amended): per-source errors are only logged and recorded in the
adapter's `last_failure` state; the caller receives the match list alone.
Whatever error outcome a source produces, the returned value is the same
empty list a successful empty response produces. -/
theorem fetch_matches_singleton (now : Int) (b : ApiState) :
    fetch_matches now [b] = (process_api now ([], []) b).1.take 20 := rfl

theorem c6_no_error_channel (now : Int) (api : ApiState)
    (h : api.outcome.isError = true) :
    fetch_matches now [api] = []
    ∧ fetch_matches now [api]
        = fetch_matches now [{ api with outcome := .ok [] }] := by
  have h1 : fetch_matches now [api] = [] := by
    rw [fetch_matches_singleton]
    unfold process_api
    split_ifs
    · rfl
    · cases hok : api.outcome with
      | ok items => rw [hok] at h; simp [FetchOutcome.isError] at h
      | http403 => rfl
      | http401 => rfl
      | reqError => rfl
      | timeout => rfl
  have h2 : fetch_matches now [{ api with outcome := .ok [] }] = [] := by
    rw [fetch_matches_singleton]
    unfold process_api
    split_ifs <;> rfl
  exact ⟨h1, by rw [h1, h2]⟩

/-- C6 witness: the amended statement at a concrete timed-out source. -/
theorem c6_no_error_channel_witness :
    fetch_matches 0 [⟨"api-football", 2, none, .timeout⟩] = []
    ∧ fetch_matches 0 [⟨"api-football", 2, none, .timeout⟩]
        = fetch_matches 0 [⟨"api-football", 2, none, .ok []⟩] :=
  c6_no_error_channel 0 ⟨"api-football", 2, none, .timeout⟩ rfl

/-! ## Claim C8 — phase totality -/

/-- On UTC instants the branch classification is total and exactly one of
the three phases holds, with the live / ended messages on their
branches. -/
theorem phase_instants_spec (kickoff now : Int) :
    (phase_instants kickoff now = .Upcoming ∨ phase_instants kickoff now = .Live
      ∨ phase_instants kickoff now = .Ended)
    ∧ (phase_instants kickoff now = .Upcoming ↔ now < kickoff)
    ∧ (phase_instants kickoff now = .Live ↔ kickoff ≤ now ∧ now - kickoff < 7200)
    ∧ (phase_instants kickoff now = .Ended ↔ 7200 ≤ now - kickoff)
    ∧ (phase_instants kickoff now = .Live →
        countdown_instants kickoff now = "üî• LIVE NOW!")
    ∧ (phase_instants kickoff now = .Ended →
        countdown_instants kickoff now = "‚úÖ Match Ended") := by
  unfold phase_instants countdown_instants
  split_ifs with h1 h2 <;> simp_all
  all_goals omega

/-- C8 counterexample: the phase function does have an error case.  The
timestamp `"2025-05-01 18:00:00"` is accepted by the third layout
`%Y-%m-%d %H:%M:%S`, but the parsed `datetime` is offset-naive (no `Z` in
the string, so the UTC fix-up never fires); `precise_countdown` then
raises `TypeError` comparing it with the aware `now` (modelled as
`none`), so this pipeline-produced `(kickoff, now)` pair maps to *no*
phase at all. -/
theorem c8_counterexample :
    strptime_space "2025-05-01 18:00:00"
      = some (parse_match_time 0 "2025-05-01 18:00:00")
    ∧ (parse_match_time 0 "2025-05-01 18:00:00").tz = none
    ∧ phase (parse_match_time 0 "2025-05-01 18:00:00") 0 = none
    ∧ precise_countdown (parse_match_time 0 "2025-05-01 18:00:00") 0 = none := by
  refine ⟨by decide, by decide, by decide, by decide⟩

/-- C8 (amended): for every *offset-aware* kickoff (as the first two
layouts and the `Z` fix-up produce) and every `now`, the phase function
returns exactly one of Upcoming/Live/Ended with the claimed windows —
Upcoming iff the kickoff instant is after now, Live during the fixed
7200-second window after kickoff, Ended beyond — and `precise_countdown`
prints the live / ended messages on those branches.  For an offset-naive
kickoff, however — which `parse_match_time` produces for the accepted
layout `%Y-%m-%d %H:%M:%S` — the comparison with the aware `now` raises
`TypeError`, so the function is *not* error-free on all
pipeline-produced inputs. -/
theorem c8_phase_totality_amended (mt : PyDateTime) (now : Int) :
    (∀ off, mt.tz = some off →
      phase mt now = some (phase_instants (mt.naive - off) now)
      ∧ precise_countdown mt now = some (countdown_instants (mt.naive - off) now)
      ∧ (phase_instants (mt.naive - off) now = .Upcoming
          ∨ phase_instants (mt.naive - off) now = .Live
          ∨ phase_instants (mt.naive - off) now = .Ended)
      ∧ (phase_instants (mt.naive - off) now = .Upcoming ↔ now < mt.naive - off)
      ∧ (phase_instants (mt.naive - off) now = .Live
          ↔ mt.naive - off ≤ now ∧ now - (mt.naive - off) < 7200)
      ∧ (phase_instants (mt.naive - off) now = .Ended
          ↔ 7200 ≤ now - (mt.naive - off))
      ∧ (phase_instants (mt.naive - off) now = .Live →
          countdown_instants (mt.naive - off) now = "üî• LIVE NOW!")
      ∧ (phase_instants (mt.naive - off) now = .Ended →
          countdown_instants (mt.naive - off) now = "‚úÖ Match Ended"))
    ∧ (mt.tz = none → phase mt now = none ∧ precise_countdown mt now = none) := by
  constructor
  · intro off hoff
    have h1 : phase mt now = some (phase_instants (mt.naive - off) now) := by
      unfold phase
      rw [hoff]
    have h2 : precise_countdown mt now
        = some (countdown_instants (mt.naive - off) now) := by
      unfold precise_countdown
      rw [hoff]
    exact ⟨h1, h2, phase_instants_spec (mt.naive - off) now⟩
  · intro hnone
    constructor
    · unfold phase
      rw [hnone]
    · unfold precise_countdown
      rw [hnone]

/-- C8 witness: the amended statement at a concrete aware kickoff inside
the live window, and at a concrete naive kickoff hitting the error
case. -/
theorem c8_phase_totality_amended_witness :
    precise_countdown ⟨0, some 0⟩ 100
      = some (countdown_instants ((⟨0, some 0⟩ : PyDateTime).naive - 0) 100)
    ∧ countdown_instants ((⟨0, some 0⟩ : PyDateTime).naive - 0) 100 = "üî• LIVE NOW!"
    ∧ phase ⟨0, none⟩ 100 = none :=
  ⟨((c8_phase_totality_amended ⟨0, some 0⟩ 100).1 0 rfl).2.1,
   ((c8_phase_totality_amended ⟨0, some 0⟩ 100).1 0 rfl).2.2.2.2.2.2.1
     (by decide),
   ((c8_phase_totality_amended ⟨0, none⟩ 100).2 rfl).1⟩

/-! ## Claim C10 — truncation limits -/

/-- C10: per fetch run, only the first 15 raw items of any single API
response are considered (`matches[:15]`, src/bot.py line 133), and the
combined list handed to the rest of the pipeline holds at most 20 records
(`all_matches[:20]`, line 167). -/
theorem c10_truncation_limits :
    (∀ (now : Int) (apis : List ApiState),
      (fetch_matches now apis).length ≤ 20)
    ∧ (∀ (now : Int) (st : List MatchRec × List String) (api : ApiState)
        (items : List (Option RawParsed)),
        process_api now st { api with outcome := .ok items }
          = process_api now st { api with outcome := .ok (items.take 15) }) := by
  constructor
  · intro now apis
    unfold fetch_matches
    exact List.length_take_le _ _
  · intro now st api items
    unfold process_api
    simp [List.take_take]

/-! ## Claim C5 — unparsable timestamps -/

/-- C5 counterexample: the string `"not-a-date"` parses under none of the
three accepted layouts, yet the match is *not* dropped:
`parse_match_time` substitutes the invented kickoff `now + 2h` (an
aware-UTC instant two hours from the current clock — note the substituted
value varies with the clock). -/
theorem c5_counterexample :
    strptime_offset "not-a-date" = none
    ∧ strptime_zulu "not-a-date" = none
    ∧ strptime_space "not-a-date" = none
    ∧ parse_match_time 0 "not-a-date" = ⟨7200, some 0⟩
    ∧ parse_match_time 1000 "not-a-date" ≠ parse_match_time 0 "not-a-date" := by
  refine ⟨by decide, by decide, by decide, by decide, by decide⟩

/-- C5 (amended): a raw match whose kickoff string parses under none of
the accepted layouts is not dropped and does not fail; `parse_match_time`
returns the substituted kickoff instant `now + 2 hours` (UTC) and the
match proceeds through the pipeline with it. -/
theorem c5_fallback_substitutes (now_utc : Int) (s : String)
    (h1 : strptime_offset s = none) (h2 : strptime_zulu s = none)
    (h3 : strptime_space s = none) :
    parse_match_time now_utc s = ⟨now_utc + 7200, some 0⟩ := by
  unfold parse_match_time
  rw [h1, h2, h3]

/-- C5 witness: the fallback substitution at a concrete garbage string. -/
theorem c5_fallback_substitutes_witness :
    parse_match_time 0 "garbage" = ⟨0 + 7200, some 0⟩ :=
  c5_fallback_substitutes 0 "garbage" (by decide) (by decide) (by decide)

/-! ## Positivity of the raw scores -/

theorem uniform_lb {a b u : ℚ} (hab : a ≤ b) (hu : 0 ≤ u) :
    a ≤ uniform a b u := by
  unfold uniform
  nlinarith

theorem home_win_score_pos (league : String) {u0 u2 : ℚ}
    (h0 : 0 ≤ u0) (h2 : 0 ≤ u2) : 0 < home_win_score league u0 u2 := by
  have hm := league_modifier_pos league
  have ha : (0:ℚ) < uniform (1/2) 1 u0 :=
    lt_of_lt_of_le (by norm_num) (uniform_lb (by norm_num) h0)
  have hc : (0:ℚ) < uniform (2/5) (4/5) u2 :=
    lt_of_lt_of_le (by norm_num) (uniform_lb (by norm_num) h2)
  unfold home_win_score
  exact mul_pos (mul_pos (mul_pos ha hm) hc) (by norm_num)

theorem draw_score_pos {u0 u1 : ℚ} (h0 : 0 ≤ u0) (h1 : 0 ≤ u1) :
    0 < draw_score u0 u1 := by
  have ha : (0:ℚ) < uniform (1/2) 1 u0 :=
    lt_of_lt_of_le (by norm_num) (uniform_lb (by norm_num) h0)
  have hb : (0:ℚ) < uniform (2/5) (9/10) u1 :=
    lt_of_lt_of_le (by norm_num) (uniform_lb (by norm_num) h1)
  unfold draw_score
  exact mul_pos (div_pos (add_pos ha hb) (by norm_num)) (by norm_num)

theorem away_win_score_pos {u1 u2 : ℚ} (h1 : 0 ≤ u1) (h2 : 0 ≤ u2) :
    0 < away_win_score u1 u2 := by
  have hb : (0:ℚ) < uniform (2/5) (9/10) u1 :=
    lt_of_lt_of_le (by norm_num) (uniform_lb (by norm_num) h1)
  have hc : (0:ℚ) < uniform (2/5) (4/5) u2 :=
    lt_of_lt_of_le (by norm_num) (uniform_lb (by norm_num) h2)
  unfold away_win_score
  exact mul_pos (mul_pos hb (by positivity)) (by norm_num)

theorem total_score_pos (league : String) {u0 u1 u2 : ℚ}
    (h0 : 0 ≤ u0) (h1 : 0 ≤ u1) (h2 : 0 ≤ u2) :
    0 < total_score league u0 u1 u2 :=
  add_pos (add_pos (home_win_score_pos league h0 h2) (draw_score_pos h0 h1))
    (away_win_score_pos h1 h2)

/-! ## Bounds of the confidence stage -/

/-- Whatever branch the confidence stage takes, its result lies in
`[0, 99]` as soon as the three percentages are non-negative. -/
theorem confidence_outcome_bounds {h d a : ℚ}
    (hh : 0 ≤ h) (hd : 0 ≤ d) (ha : 0 ≤ a) :
    0 ≤ (confidence_outcome h d a).2 ∧ (confidence_outcome h d a).2 ≤ 99 := by
  have hmax0 : 0 ≤ max h (max d a) := le_trans hh (le_max_left _ _)
  simp only [confidence_outcome]
  split_ifs with hc h1 h2 h3 h4
  · exact ⟨le_min (by norm_num) (mul_nonneg hh (by norm_num)), min_le_left _ _⟩
  · exact ⟨le_min (by norm_num) (mul_nonneg ha (by norm_num)), min_le_left _ _⟩
  · exact ⟨le_min (by norm_num) (mul_nonneg hd (by norm_num)),
      le_trans (min_le_left _ _) (by norm_num)⟩
  · exact ⟨hmax0, by linarith [not_le.1 hc]⟩
  · exact ⟨hmax0, by linarith [not_le.1 hc]⟩
  · exact ⟨hmax0, by linarith [not_le.1 hc]⟩

/-! ## Evaluating `round1` on concrete fractions -/

theorem round1_eq_low {q : ℚ} {n : ℤ} (h1 : (n : ℚ) ≤ q * 10)
    (h2 : q * 10 < (n : ℚ) + 1/2) : round1 q = (n : ℚ) / 10 := by
  unfold round1
  rw [round_half_even_eq_low h1 h2]

theorem round1_eq_high {q : ℚ} {n : ℤ} (h1 : (n : ℚ) + 1/2 < q * 10)
    (h2 : q * 10 < (n : ℚ) + 1) : round1 q = ((n : ℚ) + 1) / 10 := by
  unfold round1
  rw [round_half_even_eq_high h1 h2]
  push_cast
  ring

/-! ## Claim C7 — confidence bound -/

/-- C7: every prediction the engine produces — whatever the league and
whatever (non-negative) unit draws the generator returns — has a
confidence between 0 and 99 inclusive, and so has the fallback returned
on degenerate or failing input. -/
theorem c7_confidence_in_range :
    (∀ (league : String) (u0 u1 u2 u3 : ℚ), 0 ≤ u0 → 0 ≤ u1 → 0 ≤ u2 →
      0 ≤ (enhanced_prediction league u0 u1 u2 u3).confidence
      ∧ (enhanced_prediction league u0 u1 u2 u3).confidence ≤ 99)
    ∧ 0 ≤ fallback_prediction.confidence
    ∧ fallback_prediction.confidence ≤ 99 := by
  refine ⟨?_, by norm_num [fallback_prediction], by norm_num [fallback_prediction]⟩
  intro league u0 u1 u2 u3 h0 h1 h2
  rw [enhanced_prediction_confidence, enhanced_prediction_home,
    enhanced_prediction_draw, enhanced_prediction_away]
  have hhw := home_win_score_pos league h0 h2
  have hdr := draw_score_pos h0 h1
  have haw := away_win_score_pos h1 h2
  have ht := total_score_pos league h0 h1 h2
  exact confidence_outcome_bounds
    (round1_nonneg (mul_nonneg (div_nonneg hhw.le ht.le) (by norm_num)))
    (round1_nonneg (mul_nonneg (div_nonneg hdr.le ht.le) (by norm_num)))
    (round1_nonneg (mul_nonneg (div_nonneg haw.le ht.le) (by norm_num)))

/-- C7 witness: the engine bound at a concrete league and draw tuple. -/
theorem c7_confidence_in_range_witness :
    0 ≤ (enhanced_prediction "PL" 0 0 0 0).confidence
    ∧ (enhanced_prediction "PL" 0 0 0 0).confidence ≤ 99 :=
  c7_confidence_in_range.1 "PL" 0 0 0 0 (le_refl 0) (le_refl 0) (le_refl 0)

theorem league_modifier_eval_PD : league_modifier "PD" = 1 := by
  unfold league_modifier
  rw [if_neg (by decide), if_pos rfl]

theorem league_modifier_eval_PL : league_modifier "PL" = 11/10 := by
  unfold league_modifier
  rw [if_pos rfl]

/-! ## Claim C2 — probability normalization -/

/-- C2 counterexample: at the unit draws `(1/5, 1/5, 1/4, 0)` in league
`PD` the three percentages are 26.5, 18.2 and 55.2: each rounds
independently (src/bot.py lines 194-196, no remainder absorption), their
sum is 99.9, and `round(sum, 1) = 99.9 ≠ 100.0`. -/
theorem c2_counterexample :
    (enhanced_prediction "PD" (1/5) (1/5) (1/4) 0).home = 53/2
    ∧ (enhanced_prediction "PD" (1/5) (1/5) (1/4) 0).draw = 91/5
    ∧ (enhanced_prediction "PD" (1/5) (1/5) (1/4) 0).away = 276/5
    ∧ (53/2 : ℚ) + 91/5 + 276/5 = 999/10
    ∧ round1 (999/10) = 999/10
    ∧ (999/10 : ℚ) ≠ 100 := by
  refine ⟨?_, ?_, ?_, by norm_num, ?_, by norm_num⟩
  · rw [enhanced_prediction_home,
      show home_win_score "PD" (1/5) (1/4) / total_score "PD" (1/5) (1/5) (1/4) * 100
          = 4800/181 from by
        norm_num [home_win_score, draw_score, away_win_score, total_score,
          uniform, league_modifier_eval_PD],
      round1_eq_low (n := 265) (by norm_num) (by norm_num)]
    norm_num
  · rw [enhanced_prediction_draw,
      show draw_score (1/5) (1/5) / total_score "PD" (1/5) (1/5) (1/4) * 100
          = 3300/181 from by
        norm_num [home_win_score, draw_score, away_win_score, total_score,
          uniform, league_modifier_eval_PD],
      round1_eq_low (n := 182) (by norm_num) (by norm_num)]
    norm_num
  · rw [enhanced_prediction_away,
      show away_win_score (1/5) (1/4) / total_score "PD" (1/5) (1/5) (1/4) * 100
          = 10000/181 from by
        norm_num [home_win_score, draw_score, away_win_score, total_score,
          uniform, league_modifier_eval_PD],
      round1_eq_low (n := 552) (by norm_num) (by norm_num)]
    norm_num
  · rw [round1_eq_low (n := 999) (by norm_num) (by norm_num)]
    norm_num

/-- C2 (amended): the three percentages are each non-negative and each is
the *independently* rounded share of its raw score; no remainder is
absorbed, so their sum need not be exactly 100.0 but always lies within
0.15 of it (each of the three roundings moves its value by at most
0.05). -/
theorem c2_probability_sum (league : String) (u0 u1 u2 u3 : ℚ)
    (h0 : 0 ≤ u0) (h1 : 0 ≤ u1) (h2 : 0 ≤ u2) :
    0 ≤ (enhanced_prediction league u0 u1 u2 u3).home
    ∧ 0 ≤ (enhanced_prediction league u0 u1 u2 u3).draw
    ∧ 0 ≤ (enhanced_prediction league u0 u1 u2 u3).away
    ∧ |(enhanced_prediction league u0 u1 u2 u3).home
        + (enhanced_prediction league u0 u1 u2 u3).draw
        + (enhanced_prediction league u0 u1 u2 u3).away - 100| ≤ 3/20 := by
  rw [enhanced_prediction_home, enhanced_prediction_draw, enhanced_prediction_away]
  have hhw := home_win_score_pos league h0 h2
  have hdr := draw_score_pos h0 h1
  have haw := away_win_score_pos h1 h2
  have ht := total_score_pos league h0 h1 h2
  have htne : total_score league u0 u1 u2 ≠ 0 := ne_of_gt ht
  have hsum : home_win_score league u0 u2 / total_score league u0 u1 u2 * 100
      + draw_score u0 u1 / total_score league u0 u1 u2 * 100
      + away_win_score u1 u2 / total_score league u0 u1 u2 * 100 = 100 := by
    have hexp : total_score league u0 u1 u2
        = home_win_score league u0 u2 + draw_score u0 u1 + away_win_score u1 u2 := rfl
    field_simp
    rw [hexp]
    ring
  have e1 := abs_round1_sub_le
    (home_win_score league u0 u2 / total_score league u0 u1 u2 * 100)
  have e2 := abs_round1_sub_le
    (draw_score u0 u1 / total_score league u0 u1 u2 * 100)
  have e3 := abs_round1_sub_le
    (away_win_score u1 u2 / total_score league u0 u1 u2 * 100)
  rw [abs_le] at e1 e2 e3 ⊢
  refine ⟨?_, ?_, ?_, ?_, ?_⟩
  · exact round1_nonneg (mul_nonneg (div_nonneg hhw.le ht.le) (by norm_num))
  · exact round1_nonneg (mul_nonneg (div_nonneg hdr.le ht.le) (by norm_num))
  · exact round1_nonneg (mul_nonneg (div_nonneg haw.le ht.le) (by norm_num))
  · linarith
  · linarith

/-- C2 witness: the amended sum bound at a concrete draw tuple. -/
theorem c2_probability_sum_witness :
    0 ≤ (enhanced_prediction "PL" 0 0 0 0).home
    ∧ 0 ≤ (enhanced_prediction "PL" 0 0 0 0).draw
    ∧ 0 ≤ (enhanced_prediction "PL" 0 0 0 0).away
    ∧ |(enhanced_prediction "PL" 0 0 0 0).home
        + (enhanced_prediction "PL" 0 0 0 0).draw
        + (enhanced_prediction "PL" 0 0 0 0).away - 100| ≤ 3/20 :=
  c2_probability_sum "PL" 0 0 0 0 (le_refl 0) (le_refl 0) (le_refl 0)

/-! ## Claim C3 — confidence boost rule -/

/-- C3 counterexample: (i) when the *draw* percentage wins at ≥ 90 the
source applies `min(95, pct*1.1)` (src/bot.py line 211), not
`min(99, pct*1.05)`: at percentages `(2.5, 95, 2.5)` the confidence is 95
while the claimed rule yields 99; (ii) the boost rule is not idempotent:
boosting 90 gives 94.5, boosting again gives 99. -/
theorem c3_counterexample :
    (confidence_outcome (5/2) 95 (5/2)).2 = 95
    ∧ min 99 ((95 : ℚ) * (21/20)) = 99
    ∧ (95 : ℚ) ≠ 99
    ∧ confidence_boost 90 = 189/2
    ∧ confidence_boost (confidence_boost 90) = 99
    ∧ (189/2 : ℚ) ≠ 99 := by
  have hb : confidence_boost 90 = 189/2 := by
    unfold confidence_boost
    rw [if_pos (by norm_num), min_eq_right (by norm_num)]
    norm_num
  refine ⟨?_, min_eq_left (by norm_num), by norm_num, hb, ?_, by norm_num⟩
  · simp only [confidence_outcome]
    rw [max_eq_left (by norm_num : (5/2 : ℚ) ≤ 95),
      max_eq_right (by norm_num : (5/2 : ℚ) ≤ 95),
      if_pos (by norm_num : (90:ℚ) ≤ 95),
      if_neg (by norm_num : ¬ (90:ℚ) ≤ 5/2),
      if_neg (by norm_num : ¬ (90:ℚ) ≤ 5/2)]
    show min 95 ((95:ℚ) * (11/10)) = 95
    rw [min_eq_left (by norm_num)]
  · rw [hb]
    unfold confidence_boost
    rw [if_pos (by norm_num), min_eq_left (by norm_num)]

/-- C3 (amended): for a home winner at ≥ 90 (and for an away winner at
≥ 90 when home is below 90) the confidence is `min(99, pct*1.05)`; when
neither home nor away reaches 90 but the winning percentage does (a draw
winner), the source instead uses `min(95, pct*1.1)`; below 90 the
confidence is the raw winning percentage.  The boost rule is *not*
idempotent in general: applying it twice agrees with applying it once
exactly for inputs below 90 or at least 660/7 ≈ 94.29. -/
theorem c3_boost_rule :
    (∀ h d a : ℚ,
      (90 ≤ h → (confidence_outcome h d a).2 = min 99 (h * (21/20)))
      ∧ (h < 90 → 90 ≤ a → (confidence_outcome h d a).2 = min 99 (a * (21/20)))
      ∧ (h < 90 → a < 90 → 90 ≤ d →
          (confidence_outcome h d a).2 = min 95 (d * (11/10)))
      ∧ (max h (max d a) < 90 →
          (confidence_outcome h d a).2 = max h (max d a)))
    ∧ (∀ p : ℚ, confidence_boost (confidence_boost p) = confidence_boost p
        ↔ (p < 90 ∨ 660/7 ≤ p)) := by
  constructor
  · intro h d a
    refine ⟨?_, ?_, ?_, ?_⟩
    · intro hh
      simp only [confidence_outcome]
      rw [if_pos (le_trans hh (le_max_left _ _)), if_pos hh]
    · intro hh haa
      simp only [confidence_outcome]
      rw [if_pos (le_trans haa (le_trans (le_max_right d a) (le_max_right h _))),
        if_neg (not_le.2 hh), if_pos haa]
    · intro hh haa hdd
      simp only [confidence_outcome]
      rw [if_pos (le_trans hdd (le_trans (le_max_left d a) (le_max_right h _))),
        if_neg (not_le.2 hh), if_neg (not_le.2 haa)]
    · intro hm
      simp only [confidence_outcome]
      rw [if_neg (not_le.2 hm)]
      split_ifs <;> rfl
  · intro p
    constructor
    · intro heq
      by_contra hcon
      push_neg at hcon
      obtain ⟨h90, hlt⟩ := hcon
      have hb1 : confidence_boost p = p * (21/20) := by
        unfold confidence_boost
        rw [if_pos h90]
        exact min_eq_right (by linarith)
      have hb2 : confidence_boost (p * (21/20)) = 99 := by
        unfold confidence_boost
        rw [if_pos (by linarith)]
        exact min_eq_left (by linarith)
      rw [hb1, hb2] at heq
      linarith
    · rintro (hlt | hge)
      · have hb : confidence_boost p = p := by
          unfold confidence_boost
          exact if_neg (not_le.2 hlt)
        rw [hb, hb]
      · have h90 : (90 : ℚ) ≤ p := le_trans (by norm_num) hge
        have hb : confidence_boost p = 99 := by
          unfold confidence_boost
          rw [if_pos h90]
          exact min_eq_left (by linarith)
        rw [hb]
        unfold confidence_boost
        rw [if_pos (by norm_num)]
        exact min_eq_left (by norm_num)

/-- C3 witness: the amended rule at a concrete home winner and a concrete
sub-90 fixed point of the boost. -/
theorem c3_boost_rule_witness :
    (confidence_outcome 95 2 3).2 = min 99 ((95 : ℚ) * (21/20))
    ∧ confidence_boost (confidence_boost 50) = confidence_boost 50 :=
  ⟨(c3_boost_rule.1 95 2 3).1 (by norm_num),
   (c3_boost_rule.2 50).2 (Or.inl (by norm_num))⟩

/-! ## Claim C9 — determinism and the entropy source -/

/-- C9 counterexample: the scoring function is *not* a pure function of
the candidate plus an injected entropy source — nothing is injected; each
call consumes four draws from the process-global generator.  With the
generator's output stream fixed, predicting the *same* candidate twice in
succession (the second call starting at the stream position where the
first ended) yields different results. -/
theorem c9_counterexample :
    (enhanced_prediction_r "PL" (fun n => if n < 4 then 0 else 4/5) 0).1
      ≠ (enhanced_prediction_r "PL" (fun n => if n < 4 then 0 else 4/5)
          ((enhanced_prediction_r "PL" (fun n => if n < 4 then 0 else 4/5) 0).2)).1 := by
  intro heq
  have hfirst : (enhanced_prediction_r "PL" (fun n => if n < 4 then 0 else 4/5) 0).1.home
      = 217/10 := by
    show (enhanced_prediction "PL"
        (if (0:Nat) < 4 then 0 else 4/5) (if (1:Nat) < 4 then 0 else 4/5)
        (if (2:Nat) < 4 then 0 else 4/5) (if (3:Nat) < 4 then 0 else 4/5)).home = 217/10
    norm_num
    rw [enhanced_prediction_home,
      show home_win_score "PL" 0 0 / total_score "PL" 0 0 0 * 100 = 17600/811 from by
        norm_num [home_win_score, draw_score, away_win_score, total_score,
          uniform, league_modifier_eval_PL],
      round1_eq_low (n := 217) (by norm_num) (by norm_num)]
    norm_num
  have hsecond : (enhanced_prediction_r "PL" (fun n => if n < 4 then 0 else 4/5)
      ((enhanced_prediction_r "PL" (fun n => if n < 4 then 0 else 4/5) 0).2)).1.home
      = 413/10 := by
    show (enhanced_prediction "PL"
        (if (4:Nat) < 4 then 0 else 4/5) (if (4+1:Nat) < 4 then 0 else 4/5)
        (if (4+2:Nat) < 4 then 0 else 4/5) (if (4+3:Nat) < 4 then 0 else 4/5)).home = 413/10
    norm_num
    rw [enhanced_prediction_home,
      show home_win_score "PL" (4/5) (4/5) / total_score "PL" (4/5) (4/5) (4/5) * 100
          = 12830400/310679 from by
        norm_num [home_win_score, draw_score, away_win_score, total_score,
          uniform, league_modifier_eval_PL],
      round1_eq_high (n := 412) (by norm_num) (by norm_num)]
    norm_num
  rw [heq] at hfirst
  rw [hfirst] at hsecond
  norm_num at hsecond

/-- Congruence of the prediction fold in the entropy stream: runs whose
streams agree on the consumed positions coincide. -/
theorem predictions_foldl_congr (e1 e2 : Entropy) :
    ∀ (ls : List String) (acc : List Pred) (pos : Nat),
      (∀ i, i < 4 * ls.length → e1 (pos + i) = e2 (pos + i)) →
      ls.foldl
        (fun st lg =>
          (st.1 ++ [(enhanced_prediction_r lg e1 st.2).1],
           (enhanced_prediction_r lg e1 st.2).2)) (acc, pos)
      = ls.foldl
        (fun st lg =>
          (st.1 ++ [(enhanced_prediction_r lg e2 st.2).1],
           (enhanced_prediction_r lg e2 st.2).2)) (acc, pos) := by
  intro ls
  induction ls with
  | nil =>
    intro acc pos hp
    rw [List.foldl_nil, List.foldl_nil]
  | cons hd tl ih =>
    intro acc pos hp
    have h0 := hp 0 (by simp only [List.length_cons]; omega)
    have h1 := hp 1 (by simp only [List.length_cons]; omega)
    have h2 := hp 2 (by simp only [List.length_cons]; omega)
    have h3 := hp 3 (by simp only [List.length_cons]; omega)
    have h0' : e1 pos = e2 pos := by simpa using h0
    have hstep : enhanced_prediction_r hd e1 pos = enhanced_prediction_r hd e2 pos := by
      unfold enhanced_prediction_r
      rw [h0', h1, h2, h3]
    simp only [List.foldl_cons, hstep]
    exact ih _ (pos + 4) (by
      intro i hi
      have := hp (4 + i) (by simp only [List.length_cons]; omega)
      rwa [show pos + (4 + i) = pos + 4 + i from by omega] at this)

/-- C9 (amended): the prediction stage has no injected entropy parameter —
it reads the process-global generator — but its output is a function of
the candidates and the generator's draw stream alone: two runs over the
same candidate list whose streams agree on the `4·k` consumed draws
(four per candidate) produce identical output.  In particular, re-seeding
the global generator identically reproduces the run, while a second run
*within* one process continues the stream and generally differs
(see the counterexample). -/
theorem c9_entropy_determinism (leagues : List String) (e1 e2 : Entropy)
    (pos : Nat)
    (h : ∀ i, i < 4 * leagues.length → e1 (pos + i) = e2 (pos + i)) :
    predictions_run leagues e1 pos = predictions_run leagues e2 pos := by
  unfold predictions_run
  exact predictions_foldl_congr e1 e2 leagues [] pos h

/-- C9 witness: two distinct streams agreeing on the four consumed draws
give the same one-candidate run. -/
theorem c9_entropy_determinism_witness :
    predictions_run ["PL"] (fun _ => 0) 0
      = predictions_run ["PL"] (fun n => if n < 4 then 0 else 1) 0 :=
  c9_entropy_determinism ["PL"] (fun _ => 0) (fun n => if n < 4 then 0 else 1) 0
    (by
      intro i hi
      simp only [List.length_singleton] at hi
      show (0 : ℚ) = if 0 + i < 4 then 0 else 1
      rw [if_pos (by omega)])

end Bot
